import Mathlib

/-
Verification of the chii IRC bot core (chii.py): registry, dispatch and
permission checking.  Python dictionaries over string keys are embedded as
association lists with unique keys, Python exceptions as an explicit
error type carried in Except, and the observable actions of a dispatch
(handler invocations, outgoing messages, log lines) as a trace of effects.
-/

deriving instance DecidableEq for Except

namespace Chii

/-- Python exception outcomes that the embedded code can raise. -/
inductive PyExc where
  | nameError (m : String)
  | keyError (k : String)
  | indexError
  | exc (m : String)
deriving Repr, DecidableEq

/-- Message text of an exception, as used when the code formats the error. -/
def errText : PyExc → String
  | PyExc.nameError m => m
  | PyExc.keyError k => k
  | PyExc.indexError => "list index out of range"
  | PyExc.exc m => m

/-- Helper for pySplit: walk the characters, accumulating the current
token; whitespace ends a token, empty pieces are dropped. -/
def pySplitAux (cs : List Char) (cur : List Char) : List String :=
  match cs with
  | [] => if cur.isEmpty then [] else [String.mk cur.reverse]
  | c :: rest =>
    if c.isWhitespace then
      (if cur.isEmpty then pySplitAux rest []
       else String.mk cur.reverse :: pySplitAux rest [])
    else pySplitAux rest (c :: cur)

/-- Python str.split() with no separator: split on whitespace runs,
dropping empty pieces. -/
def pySplit (s : String) : List String := pySplitAux s.data []

/-- Python slicing s[1:]: drop the first character. -/
def pyDrop1 (s : String) : String := String.mk (s.data.drop 1)

/-- Python str.lower() on the ascii command words used here. -/
def pyLower (s : String) : String := String.mk (s.data.map Char.toLower)

/-- Python dict lookup d.get(k, None) on an association list. -/
def dictGet {α : Type} (l : List (String × α)) (k : String) : Option α :=
  (l.find? (fun p => p.1 == k)).map (fun p => p.2)

/-- Python dict assignment d[k] = v on an association list with unique
keys: overwrite the binding when the key is present, append it otherwise,
keeping insertion order. -/
def dictSet {α : Type} : List (String × α) → String → α → List (String × α)
  | [], k, v => [(k, v)]
  | p :: rest, k, v =>
    if p.1 == k then (k, v) :: rest else p :: dictSet rest k v

/-- collections.defaultdict(list) indexing d[k]: return the list bound to
the key, inserting an empty list first when the key is absent.  Used by
event registration (self.events[event_type].append(...)); dispatch instead
uses dictGet, mirroring self.events.get(event_type, None). -/
def ddIndex {α : Type} (l : List (String × List α)) (k : String) :
    List (String × List α) × List α :=
  match dictGet l k with
  | some v => (l, v)
  | none => (l ++ [(k, [])], [])

/-- Body of a handler: may raise (error, with the exception text) or return
an optional response string (None embedded as Option.none). -/
def PyRet : Type := Except String (Option String)

/-- A command-tagged function: alias list from the command decorator
(wrapper._command_names), optional restriction role (wrapper._restrict) and
the body, called as command(nick, host, channel, *args). -/
structure CmdFunc where
  commandNames : List String
  restrict : Option String
  fn : String → String → String → List String → PyRet

/-- An event-tagged function: function name, event type key
(wrapper._event_type) and the body, called as event(*args). -/
structure EvFunc where
  name : String
  eventType : String
  fn : List String → PyRet

/-- A task-tagged function: function name, interval in seconds
(wrapper._task_interval) and the body. -/
structure TaskFunc where
  name : String
  interval : Nat
  fn : List String → PyRet

/-- Observable actions of a dispatch: a handler call with its positional
arguments, an outgoing self.msg(target, text), a self.logger.log(text). -/
inductive Effect where
  | invoke (name : String) (args : List String)
  | msg (target : String) (text : String)
  | log (text : String)
deriving Repr, DecidableEq

/-- The mutable bot state that dispatch consults: own nickname, the three
registries (self.commands, self.events, self.tasks) and the configured
role table (config, key user_roles). -/
structure BotState where
  nickname : String
  commands : List (String × CmdFunc)
  events : List (String × List EvFunc)
  tasks : List TaskFunc
  roles : List (String × List String)

/-- Chii.check_permission (chii.py lines 258-264): None restriction is
always allowed; otherwise the role table is indexed directly with the role
name, so an absent role raises KeyError, and for a present role the result
is membership of nick, host or nick!host in the member list. -/
def checkPermission (roles : List (String × List String))
    (restrictTo : Option String) (nick host : String) : Except PyExc Bool :=
  match restrictTo with
  | none => Except.ok true
  | some role =>
    match dictGet roles role with
    | none => Except.error (PyExc.keyError role)
    | some members =>
      Except.ok (members.contains nick || members.contains host ||
        members.contains (nick ++ "!" ++ host))

/-- The diagnostic string built at the dispatch boundary from a caught
handler exception, chii.py lines 233 and 251. -/
def diag (e : String) : String := "ur shit am fuked! " ++ e

/-- Parse step of Chii._handle_command (chii.py lines 223-224, 228-229):
split the raw text on whitespace (msg.split()), drop the first character of
the first token and lower-case it (msg[0][1:].lower()) as the lookup key,
and keep the remaining tokens as the argument list (msg[1:] when present,
[] otherwise).  On an empty token list msg[0] raises IndexError. -/
def parseCommandMsg (msg : String) : Except PyExc (String × List String) :=
  match pySplit msg with
  | [] => Except.error PyExc.indexError
  | tok :: rest => Except.ok (pyLower (pyDrop1 tok), rest)

/-- Chii._handle_command lines 228-240 as they would run after the
permission gate: invoke the handler with (nick, host, channel, *args)
inside try/except, converting a raised exception into the diagnostic
string; a truthy response is sent to the sender nick when the channel
equals the bot nickname and to the channel otherwise, and is logged.
This continuation is unreachable in the source: line 227 evaluates the
bare name check_permission first, which raises NameError (see
handleCommand). -/
def invokeAndReply (nickname : String) (key : String) (cmd : CmdFunc)
    (nick host channel : String) (args : List String) : List Effect :=
  let response : Option String :=
    match cmd.fn nick host channel args with
    | Except.error e => some (diag e)
    | Except.ok v => v
  Effect.invoke key (nick :: host :: channel :: args) ::
    match response with
    | some s =>
      if s ≠ "" then
        (if channel == nickname then [Effect.msg nick s]
         else [Effect.msg channel s])
          ++ [Effect.log ("<" ++ nickname ++ "> " ++ s)]
      else []
    | none => []

/-- Chii._handle_command (chii.py lines 221-240).  The message is parsed,
the key is looked up with self.commands.get(key, None) and an unknown or
falsy key is a silent no-op.  For a known key, line 227 reads the bare
name check_permission, which is not bound at module scope (the function
only exists as the method Chii.check_permission), so Python raises
NameError there, before the permission check or the handler call can
happen; the registries are never written. -/
def handleCommand (st : BotState) (nick host channel msg : String) :
    BotState × Except PyExc (List Effect) :=
  match parseCommandMsg msg with
  | Except.error e => (st, Except.error e)
  | Except.ok (key, _) =>
    match dictGet st.commands key with
    | none => (st, Except.ok [])
    | some _ =>
      (st, Except.error
        (PyExc.nameError "NameError: name check_permission is not defined"))

/-- One iteration of the Chii._handle_event loop (chii.py lines 247-256):
call the handler with the payload inside try/except, converting a raised
exception into the diagnostic string; when both the reply target and the
response are truthy, send the response to the target and log it. -/
def stepEvent (nickname : String) (respond : Option String)
    (args : List String) (h : EvFunc) : List Effect :=
  let response : Option String :=
    match h.fn args with
    | Except.error e => some (diag e)
    | Except.ok v => v
  Effect.invoke h.name args ::
    match respond, response with
    | some t, some s =>
      if t ≠ "" ∧ s ≠ "" then
        [Effect.msg t s, Effect.log ("<" ++ nickname ++ "> " ++ s)]
      else []
    | _, _ => []

/-- The for-loop of Chii._handle_event: the handlers run sequentially in
list order, each iteration contributing its own effects. -/
def eventLoop (nickname : String) (respond : Option String)
    (args : List String) : List EvFunc → List Effect
  | [] => []
  | h :: rest =>
    stepEvent nickname respond args h ++ eventLoop nickname respond args rest

/-- Chii._handle_event (chii.py lines 243-256): look the event type up
with self.events.get(event_type, None) (no defaultdict insertion) and run
the loop; a missing or empty handler list is a no-op. -/
def handleEvent (st : BotState) (eventType : String)
    (respond : Option String) (args : List String) : BotState × List Effect :=
  match dictGet st.events eventType with
  | none => (st, [])
  | some evs => (st, eventLoop st.nickname respond args evs)

/-- Projection of a trace to the handler calls it contains, in order. -/
def invokesOf (tr : List Effect) : List (String × List String) :=
  tr.filterMap (fun e =>
    match e with
    | Effect.invoke n a => some (n, a)
    | _ => none)

/-- Value of a module attribute: a tagged handler function (those carrying
the decorator field _registry) or a plain untagged value. -/
inductive AttrVal where
  | commandF (f : CmdFunc)
  | eventF (f : EvFunc)
  | taskF (f : TaskFunc)
  | plain

/-- A named module attribute. -/
structure PyAttr where
  name : String
  val : AttrVal

/-- A loaded Python module, as a list of its attributes. -/
structure Module where
  attrs : List PyAttr

/-- The three registries rebuilt by Chii._update_registry: self.commands,
self.events, self.tasks. -/
structure Registry where
  commands : List (String × CmdFunc)
  events : List (String × List EvFunc)
  tasks : List TaskFunc

/-- The reload cleanup of Chii._import_module (chii.py lines 188-189):
delete every attribute of the old module object except __name__, so that
nothing of its previous state survives into the reimport. -/
def cleanupModule (m : Module) : Module :=
  Module.mk (m.attrs.filter (fun a => a.name == "__name__"))

/-- Insertion step for sortByName. -/
def insertByName (a : PyAttr) : List PyAttr → List PyAttr
  | [] => [a]
  | b :: rest =>
    if a.name ≤ b.name then a :: b :: rest else b :: insertByName a rest

/-- dir(mod) lists attribute names sorted; this orders the attribute list
by name the same way. -/
def sortByName (l : List PyAttr) : List PyAttr :=
  l.foldr insertByName []

/-- The scan filter of Chii._add_to_registry (chii.py line 176): keep
attributes whose name does not start with an underscore and that carry a
_registry tag. -/
def isRegistered (a : PyAttr) : Bool :=
  !(a.name.startsWith "_") &&
    (match a.val with
     | AttrVal.plain => false
     | _ => true)

/-- Loop body of add_command (chii.py lines 163-166): for one alias, print
a warning when the alias is already bound, then overwrite the binding with
the (bound) method. -/
def addCommandStep (m : CmdFunc)
    (acc : List (String × CmdFunc) × List String) (name : String) :
    List (String × CmdFunc) × List String :=
  let warns2 :=
    if (dictGet acc.1 name).isSome then
      acc.2 ++ ["Warning! commands registry already contains " ++ name]
    else acc.2
  (dictSet acc.1 name m, warns2)

/-- add_command of Chii._add_to_registry (chii.py lines 162-166): the loop
over _command_names.  A collision produces only the warning string, never
an exception. -/
def addCommand (commands : List (String × CmdFunc)) (warns : List String)
    (m : CmdFunc) : List (String × CmdFunc) × List String :=
  m.commandNames.foldl (addCommandStep m) (commands, warns)

/-- add_event (chii.py lines 168-169): defaultdict indexing followed by
append, so the handler is placed at the end of the list for its type. -/
def addEvent (events : List (String × List EvFunc)) (f : EvFunc) :
    List (String × List EvFunc) :=
  match ddIndex events f.eventType with
  | (events2, lst) => dictSet events2 f.eventType (lst ++ [f])

/-- add_task (chii.py lines 171-172): append to the task list. -/
def addTask (tasks : List TaskFunc) (f : TaskFunc) : List TaskFunc :=
  tasks ++ [f]

/-- Chii._add_to_registry (chii.py lines 160-178): scan the module
attributes in dir() order, keep the tagged ones and dispatch each to the
matching add function.  Warnings are accumulated alongside. -/
def addToRegistry (reg : Registry) (warns : List String) (m : Module) :
    Registry × List String :=
  (sortByName (m.attrs.filter isRegistered)).foldl
    (fun acc a =>
      match a.val with
      | AttrVal.commandF f =>
        match addCommand acc.1.commands acc.2 f with
        | (c, w) => ({ acc.1 with commands := c }, w)
      | AttrVal.eventF f => ({ acc.1 with events := addEvent acc.1.events f }, acc.2)
      | AttrVal.taskF f => ({ acc.1 with tasks := addTask acc.1.tasks f }, acc.2)
      | AttrVal.plain => acc)
    (reg, warns)

/-- Chii._import_module (chii.py lines 180-200).  importB is the effect of
executing the module source (what reload(mod) and a first __import__ both
do): either a loaded module or a raised exception.  When the path is
already in sys.modules the code prints Reloading, deletes the old module
state (cleanupModule) and calls reload(mod) OUTSIDE any try block, so a
failure there propagates; the later __import__ of an already-imported path
only returns it from sys.modules.  When the path is new, __import__ runs
inside try/except: a failure is printed and None is returned.  The result
pairs the printed lines with the outcome. -/
def importModule (sysModules : List String)
    (importB : String → Except PyExc Module) (path : String) :
    List String × Except PyExc (Option Module) :=
  if sysModules.contains path then
    match importB path with
    | Except.error e => (["Reloading " ++ path], Except.error e)
    | Except.ok m => (["Reloading " ++ path], Except.ok (some m))
  else
    match importB path with
    | Except.error e =>
      (["Importing " ++ path,
        "Error importing " ++ path ++ ": " ++ errText e], Except.ok none)
    | Except.ok m => (["Importing " ++ path], Except.ok (some m))

/-- The module loop of Chii._update_registry (chii.py lines 209-216): for
each module path, import it; a None result (caught import failure) skips
registration and continues; a returned module is fed to _add_to_registry;
an exception propagating out of _import_module aborts the whole loop. -/
def updateRegistryLoop (sysModules : List String)
    (importB : String → Except PyExc Module) (logs : List String)
    (reg : Registry) : List String → List String × Except PyExc Registry
  | [] => (logs, Except.ok reg)
  | p :: rest =>
    match importModule sysModules importB p with
    | (l, Except.error e) => (logs ++ l, Except.error e)
    | (l, Except.ok none) => updateRegistryLoop sysModules importB (logs ++ l) reg rest
    | (l, Except.ok (some m)) =>
      match addToRegistry reg [] m with
      | (reg2, w) => updateRegistryLoop sysModules importB (logs ++ l ++ w) reg2 rest

/-- Chii._update_registry (chii.py lines 202-219): reset the three
registries to empty and run the module loop over the flattened
package.module paths. -/
def updateRegistry (sysModules : List String)
    (importB : String → Except PyExc Module) (paths : List String) :
    List String × Except PyExc Registry :=
  updateRegistryLoop sysModules importB [] (Registry.mk [] [] []) paths

/-- Modelled from the spec, section 4.2, for comparison with the code
parse: strip the configured command marker from the front of the text,
split on whitespace, lower-case the first token as the lookup key and pass
the remaining tokens through as the arguments. -/
def specParseCmd (marker : String) (msg : String) :
    Option (String × List String) :=
  match pySplit (String.mk (msg.data.drop marker.data.length)) with
  | [] => none
  | tok :: rest => some (pyLower tok, rest)

/-
Concrete fixtures used by witnesses and counterexamples.
-/

/-- The default role table from the shipped configuration. -/
def demoRoles : List (String × List String) := [("admins", ["zk!is@whatit.is"])]

/-- A command handler that echoes its arguments. -/
def sayCmd : CmdFunc :=
  CmdFunc.mk ["say"] none
    (fun _ _ _ args2 => Except.ok (some (String.intercalate " " args2)))

/-- A bot state with the say command registered and no event handlers. -/
def demoState : BotState := BotState.mk "chii" [("say", sayCmd)] [] [] demoRoles

/-- A command handler that raises on invocation. -/
def boomCmd : CmdFunc :=
  CmdFunc.mk ["boom"] none (fun _ _ _ _ => Except.error "RuntimeError: boom")

/-- A bot state with the raising command registered. -/
def boomState : BotState := BotState.mk "chii" [("boom", boomCmd)] [] [] []

/-- A command handler that returns fixed non-empty text. -/
def greetCmd : CmdFunc :=
  CmdFunc.mk ["greet"] none (fun _ _ _ _ => Except.ok (some "hi there"))

/-- A bot state with the text-returning command registered. -/
def greetState : BotState := BotState.mk "chii" [("greet", greetCmd)] [] [] []

/-- An event handler that raises on invocation. -/
def evA : EvFunc := EvFunc.mk "alpha" "msg" (fun _ => Except.error "ValueError")

/-- An event handler that echoes its payload. -/
def evB : EvFunc :=
  EvFunc.mk "beta" "msg" (fun args2 => Except.ok (some (String.intercalate " " args2)))

/-- A bot state with two handlers registered for the msg event type. -/
def evState : BotState := BotState.mk "chii" [] [("msg", [evA, evB])] [] []

/-- The previously registered handler for the alias foo. -/
def oldFoo : CmdFunc :=
  CmdFunc.mk ["foo"] none (fun _ _ _ _ => Except.ok (some "old"))

/-- The colliding later registration for the alias foo. -/
def newFoo : CmdFunc :=
  CmdFunc.mk ["foo"] none (fun _ _ _ _ => Except.ok (some "new"))

/-- A command carried by the loadable demo module. -/
def goodCmdFn : CmdFunc :=
  CmdFunc.mk ["hello"] none (fun _ _ _ _ => Except.ok (some "hi"))

/-- A module that imports cleanly and registers one command. -/
def goodModule : Module :=
  Module.mk [PyAttr.mk "hello" (AttrVal.commandF goodCmdFn),
             PyAttr.mk "__name__" AttrVal.plain]

/-- Import behavior in which one module source no longer compiles and every
other one loads the demo module. -/
def demoImportB : String → Except PyExc Module :=
  fun p =>
    if p == "commands.broken" then
      Except.error (PyExc.exc "SyntaxError: invalid syntax")
    else Except.ok goodModule

/-- Import behavior in which every module source fails to compile. -/
def brokenB : String → Except PyExc Module :=
  fun _ => Except.error (PyExc.exc "boom")

/-
Helper lemmas.
-/

theorem dictGet_dictSet_self {α : Type} (l : List (String × α)) (k : String)
    (v : α) : dictGet (dictSet l k v) k = some v := by
  induction l with
  | nil => simp [dictGet, dictSet]
  | cons p rest ih =>
    by_cases hp : p.1 == k
    · simp [dictSet, hp, dictGet]
    · simp only [dictSet, hp, if_false, Bool.false_eq_true]
      simpa [dictGet, List.find?, hp] using ih

theorem dictGet_dictSet_ne {α : Type} (l : List (String × α)) (k k2 : String)
    (v : α) (h : k2 ≠ k) : dictGet (dictSet l k v) k2 = dictGet l k2 := by
  induction l with
  | nil => simp [dictGet, dictSet, List.find?, show ¬ (k == k2) from by simpa using fun hh => h hh.symm]
  | cons p rest ih =>
    by_cases hp : p.1 == k
    · have hpk : p.1 = k := by simpa using hp
      have hne : ¬ (k == k2) = true := by simpa using fun hh => h hh.symm
      have hne2 : ¬ (p.1 == k2) = true := by simpa [hpk] using fun hh => h hh.symm
      simp [dictSet, hp, dictGet, List.find?, hne, hne2, hpk]
    · by_cases hq : p.1 == k2
      · simp [dictSet, hp, dictGet, List.find?, hq]
      · simp only [dictSet, hp, if_false, Bool.false_eq_true]
        simpa [dictGet, List.find?, hq, hp] using ih

theorem isSome_dictGet_dictSet {α : Type} (l : List (String × α))
    (k k2 : String) (v : α) (h : (dictGet l k2).isSome) :
    (dictGet (dictSet l k v) k2).isSome := by
  by_cases hk : k2 = k
  · subst hk
    simp [dictGet_dictSet_self]
  · rwa [dictGet_dictSet_ne l k k2 v hk]

theorem invokesOf_append (xs ys : List Effect) :
    invokesOf (xs ++ ys) = invokesOf xs ++ invokesOf ys := by
  simp [invokesOf, List.filterMap_append]

theorem invokesOf_stepEvent (n : String) (r : Option String)
    (a : List String) (h : EvFunc) :
    invokesOf (stepEvent n r a h) = [(h.name, a)] := by
  cases hf : h.fn a with
  | error e =>
    cases r with
    | none => simp [stepEvent, hf, invokesOf, List.filterMap]
    | some t =>
      by_cases ht : t ≠ "" ∧ diag e ≠ "" <;>
        simp [stepEvent, hf, invokesOf, List.filterMap, ht]
  | ok v =>
    cases v with
    | none => cases r <;> simp [stepEvent, hf, invokesOf, List.filterMap]
    | some s =>
      cases r with
      | none => simp [stepEvent, hf, invokesOf, List.filterMap]
      | some t =>
        by_cases ht : t ≠ "" ∧ s ≠ "" <;>
          simp [stepEvent, hf, invokesOf, List.filterMap, ht]

theorem eventLoop_eq_flatten (n : String) (r : Option String) (a : List String)
    (l : List EvFunc) :
    eventLoop n r a l = (l.map (stepEvent n r a)).flatten := by
  induction l with
  | nil => simp [eventLoop]
  | cons h rest ih => simp [eventLoop, ih]

theorem invokesOf_eventLoop (n : String) (r : Option String)
    (a : List String) (l : List EvFunc) :
    invokesOf (eventLoop n r a l) = l.map (fun f => (f.name, a)) := by
  induction l with
  | nil => simp [eventLoop, invokesOf]
  | cons h rest ih => simp [eventLoop, invokesOf_append, invokesOf_stepEvent, ih]

theorem updateRegistryLoop_snd_logs_indep (sysM : List String)
    (importB : String → Except PyExc Module) (ps : List String) :
    ∀ (reg : Registry) (logs1 logs2 : List String),
      (updateRegistryLoop sysM importB logs1 reg ps).2 =
      (updateRegistryLoop sysM importB logs2 reg ps).2 := by
  induction ps with
  | nil => intro reg logs1 logs2; rfl
  | cons p rest ih =>
    intro reg logs1 logs2
    rcases him : importModule sysM importB p with ⟨l, r⟩
    rcases r with e | o
    · simp [updateRegistryLoop, him]
    · rcases o with _ | m
      · simpa [updateRegistryLoop, him] using ih reg _ _
      · rcases hadd : addToRegistry reg [] m with ⟨reg2, w⟩
        simpa [updateRegistryLoop, him, hadd] using ih reg2 _ _

theorem foldl_addCommandStep_get_notin (m : CmdFunc) (ns : List String) :
    ∀ (acc : List (String × CmdFunc) × List String) (k : String), k ∉ ns →
      dictGet (ns.foldl (addCommandStep m) acc).1 k = dictGet acc.1 k := by
  induction ns with
  | nil => intro acc k hk; rfl
  | cons n rest ih =>
    intro acc k hk
    have hk1 : k ≠ n := fun h => hk (h ▸ List.mem_cons_self n rest)
    have hk2 : k ∉ rest := fun h => hk (List.mem_cons_of_mem n h)
    rw [List.foldl_cons, ih (addCommandStep m acc n) k hk2]
    exact dictGet_dictSet_ne acc.1 n k m hk1

theorem foldl_addCommandStep_get_mem (m : CmdFunc) (ns : List String) :
    ∀ (acc : List (String × CmdFunc) × List String) (k : String), k ∈ ns →
      dictGet (ns.foldl (addCommandStep m) acc).1 k = some m := by
  induction ns with
  | nil => intro acc k hk; cases hk
  | cons n rest ih =>
    intro acc k hk
    rw [List.foldl_cons]
    by_cases hr : k ∈ rest
    · exact ih _ k hr
    · have hkn : k = n := by
        rcases List.mem_cons.mp hk with h | h
        · exact h
        · exact absurd h hr
      rw [foldl_addCommandStep_get_notin m rest _ k hr]
      subst hkn
      exact dictGet_dictSet_self acc.1 k m


theorem foldl_addCommandStep_warns_mono (m : CmdFunc) (ns : List String) :
    ∀ (acc : List (String × CmdFunc) × List String) (w : String), w ∈ acc.2 →
      w ∈ (ns.foldl (addCommandStep m) acc).2 := by
  induction ns with
  | nil => intro acc w hw; exact hw
  | cons n rest ih =>
    intro acc w hw
    rw [List.foldl_cons]
    apply ih
    by_cases h : (dictGet acc.1 n).isSome
    · simp only [addCommandStep, h, if_true]
      exact List.mem_append_left _ hw
    · simpa [addCommandStep, h] using hw

theorem foldl_addCommandStep_warned (m : CmdFunc) (ns : List String) :
    ∀ (acc : List (String × CmdFunc) × List String) (k : String), k ∈ ns →
      (dictGet acc.1 k).isSome →
      ("Warning! commands registry already contains " ++ k) ∈
        (ns.foldl (addCommandStep m) acc).2 := by
  induction ns with
  | nil => intro acc k hk; cases hk
  | cons n rest ih =>
    intro acc k hk hsome
    rw [List.foldl_cons]
    by_cases hn : n = k
    · subst hn
      apply foldl_addCommandStep_warns_mono
      have hstep : (addCommandStep m acc n).2 =
          acc.2 ++ ["Warning! commands registry already contains " ++ n] := by
        simp [addCommandStep, hsome]
      rw [hstep]
      exact List.mem_append_right _ (List.mem_singleton.mpr rfl)
    · have hkr : k ∈ rest := by
        rcases List.mem_cons.mp hk with h | h
        · exact absurd h.symm hn
        · exact h
      apply ih _ k hkr
      exact isSome_dictGet_dictSet acc.1 n k m hsome

/-
Claim theorems.
-/

/-- C1 (code bug).  The claim says a known prefixed command is dispatched
to its handler (or silently dropped on permission denial).  The code
instead raises NameError for every known command key, because line 227
calls check_permission as a bare global name while the function is only
defined as a method: with the say command registered and an unrestricted
sender, dispatch of ".say hello" produces no handler invocation and an
uncaught NameError, while an unknown key stays a silent no-op. -/
theorem handleCommand_known_key_raises_nameError :
    handleCommand demoState "zk" "is@whatit.is" "#chiisadventure" ".say hello" =
      (demoState, Except.error
        (PyExc.nameError "NameError: name check_permission is not defined")) ∧
    handleCommand demoState "zk" "is@whatit.is" "#chiisadventure" ".nosuch hello" =
      (demoState, Except.ok []) := by
  exact ⟨rfl, rfl⟩

/-- C2 counterexample.  The claim says a permission check for a role that
is absent from the role table returns false without faulting; on the
shipped role table the check for role mods raises KeyError instead. -/
theorem checkPermission_unknown_role_faults :
    checkPermission demoRoles (some "mods") "zk" "whatit.is" =
      Except.error (PyExc.keyError "mods") ∧
    checkPermission demoRoles (some "mods") "zk" "whatit.is" ≠
      Except.ok false := by
  exact ⟨rfl, by decide⟩

/-- C2 (amended).  For every nick and host, the permission check called
with a role name that is not present in the role table raises KeyError
naming the role (chii.py line 262 indexes the table directly); in
particular it never returns true, so permission is never granted, but it
faults rather than returning false. -/
theorem checkPermission_unknown_role_keyError
    (roles : List (String × List String)) (role nick host : String)
    (h : dictGet roles role = none) :
    checkPermission roles (some role) nick host =
      Except.error (PyExc.keyError role) := by
  simp [checkPermission, h]

/-- Witness for C2: the amended theorem evaluated on the empty role table. -/
theorem checkPermission_unknown_role_keyError_witness :
    checkPermission [] (some "mods") "zk" "whatit.is" =
      Except.error (PyExc.keyError "mods") :=
  checkPermission_unknown_role_keyError [] "mods" "zk" "whatit.is" rfl

/-- C3 (confirmed).  Dispatching an event type whose registered handler
list is evs produces exactly the concatenation of the per-handler effect
segments in registration order, and the handler calls in the trace are
exactly one per registered handler, in order, each with the payload.  Each
segment is stepEvent: the handler call inside try/except, a raised fault
converted to the diagnostic string without stopping the loop, and the
per-handler non-empty result sent to the reply target and logged when a
target was supplied. -/
theorem handleEvent_fanout_in_order (st : BotState) (et : String)
    (respond : Option String) (args : List String) (evs : List EvFunc)
    (h : dictGet st.events et = some evs) :
    (handleEvent st et respond args).2 =
      (evs.map (stepEvent st.nickname respond args)).flatten ∧
    invokesOf (handleEvent st et respond args).2 =
      evs.map (fun f => (f.name, args)) := by
  constructor
  · simp [handleEvent, h, eventLoop_eq_flatten]
  · simp [handleEvent, h, invokesOf_eventLoop]

/-- Witness for C3: two handlers for the msg type, the first raising; both
are invoked once, in order, with the payload. -/
theorem handleEvent_fanout_in_order_witness :
    (handleEvent evState "msg" (some "#chan") ["hello"]).2 =
      ([evA, evB].map (stepEvent evState.nickname (some "#chan") ["hello"])).flatten ∧
    invokesOf (handleEvent evState "msg" (some "#chan") ["hello"]).2 =
      [evA, evB].map (fun f => (f.name, ["hello"])) :=
  handleEvent_fanout_in_order evState "msg" (some "#chan") ["hello"] [evA, evB] rfl

/-- C4 (code bug).  The claim says a handler fault is caught at the
dispatch boundary, turned into a diagnostic reply and never re-raised.
The try/except of lines 230-234 would do exactly that (second conjunct:
the continuation converts the raised RuntimeError into the diagnostic
reply and logs it), but dispatch never reaches it: the NameError of line
227 escapes the router for every known command, raising handler or not,
so no diagnostic reply is produced and the exception propagates. -/
theorem handleCommand_handler_fault_not_caught :
    (handleCommand boomState "zk" "whatit.is" "#chan" ".boom").2 =
      Except.error
        (PyExc.nameError "NameError: name check_permission is not defined") ∧
    invokeAndReply "chii" "boom" boomCmd "zk" "whatit.is" "#chan" [] =
      [Effect.invoke "boom" ["zk", "whatit.is", "#chan"],
       Effect.msg "#chan" (diag "RuntimeError: boom"),
       Effect.log ("<chii> " ++ diag "RuntimeError: boom")] := by
  exact ⟨rfl, rfl⟩

/-- C5 counterexample.  The claim says a failure to import any one module
is isolated and never aborts the whole reload.  With commands.broken
already loaded (present in sys.modules) and failing to recompile, the
reload(mod) call of line 190 sits outside the try block, so the exception
propagates and the loop aborts: commands.good is never reached and no
registry is produced. -/
theorem updateRegistry_reload_failure_aborts :
    (updateRegistry ["commands.broken"] demoImportB
        ["commands.broken", "commands.good"]).2 =
      Except.error (PyExc.exc "SyntaxError: invalid syntax") ∧
    ∀ reg : Registry,
      (updateRegistry ["commands.broken"] demoImportB
          ["commands.broken", "commands.good"]).2 ≠ Except.ok reg := by
  constructor
  · rfl
  · intro reg h
    rw [show (updateRegistry ["commands.broken"] demoImportB
          ["commands.broken", "commands.good"]).2 =
        Except.error (PyExc.exc "SyntaxError: invalid syntax") from rfl] at h
    exact Except.noConfusion h

/-- C5 (amended).  During reload: (1) the cleanup of an already-loaded
module discards every attribute except __name__ before reimport; (2) a
failure to import a module that was NOT previously loaded is isolated:
the error is logged, the module yields None, and the registry outcome of
the loop is the same as if the module were skipped, so loading continues
with the remaining modules; (3) but a failure while re-executing an
already-loaded module propagates out of _import_module uncaught, which
aborts the whole reload. -/
theorem importModule_isolation_amended :
    (∀ (m : Module) (a : PyAttr), a ∈ (cleanupModule m).attrs →
      a.name = "__name__") ∧
    (∀ (sysM : List String) (importB : String → Except PyExc Module)
        (path : String) (e : PyExc),
      ¬ sysM.contains path → importB path = Except.error e →
      (importModule sysM importB path).2 = Except.ok none ∧
      ("Error importing " ++ path ++ ": " ++ errText e) ∈
        (importModule sysM importB path).1 ∧
      ∀ (logs : List String) (reg : Registry) (rest : List String),
        (updateRegistryLoop sysM importB logs reg (path :: rest)).2 =
        (updateRegistryLoop sysM importB logs reg rest).2) ∧
    (∀ (sysM : List String) (importB : String → Except PyExc Module)
        (path : String) (e : PyExc),
      sysM.contains path → importB path = Except.error e →
      (importModule sysM importB path).2 = Except.error e) := by
  refine ⟨?_, ?_, ?_⟩
  · intro m a ha
    rw [cleanupModule] at ha
    have := (List.mem_filter.mp ha).2
    simpa using this
  · intro sysM importB path e h1 h2
    have h1m : path ∉ sysM := by simpa using h1
    have him : importModule sysM importB path =
        (["Importing " ++ path,
          "Error importing " ++ path ++ ": " ++ errText e], Except.ok none) := by
      simp [importModule, h1m, h2]
    refine ⟨by rw [him], by rw [him]; simp, ?_⟩
    intro logs reg rest
    have hstep : (updateRegistryLoop sysM importB logs reg (path :: rest)) =
        updateRegistryLoop sysM importB
          (logs ++ ["Importing " ++ path,
            "Error importing " ++ path ++ ": " ++ errText e]) reg rest := by
      simp [updateRegistryLoop, him]
    rw [hstep]
    exact updateRegistryLoop_snd_logs_indep sysM importB rest reg _ logs
  · intro sysM importB path e h1 h2
    have h1m : path ∈ sysM := by simpa using h1
    simp [importModule, h1m, h2]

/-- Witness for C5: the amended theorem evaluated on concrete import
behaviors, fresh and already-loaded. -/
theorem importModule_isolation_amended_witness :
    (importModule [] brokenB "commands.x").2 = Except.ok none ∧
    (importModule ["commands.x"] brokenB "commands.x").2 =
      Except.error (PyExc.exc "boom") ∧
    (PyAttr.mk "__name__" AttrVal.plain).name = "__name__" :=
  ⟨(importModule_isolation_amended.2.1 [] brokenB "commands.x"
      (PyExc.exc "boom") (by decide) rfl).1,
   importModule_isolation_amended.2.2 ["commands.x"] brokenB "commands.x"
      (PyExc.exc "boom") (by decide) rfl,
   importModule_isolation_amended.1 goodModule
      (PyAttr.mk "__name__" AttrVal.plain)
      (by rw [show (cleanupModule goodModule).attrs =
            [PyAttr.mk "__name__" AttrVal.plain] from rfl]
          exact List.mem_singleton.mpr rfl)⟩

/-- C6 counterexample.  The claim says the router strips the configured
command marker and then splits; for the text ". say hello", which begins
with the marker ".", that reading yields key say with one argument (third
conjunct, the spec-modelled parse), but the code splits first and drops
only the first character of the first token, yielding the empty key with
two arguments. -/
theorem parseCommandMsg_counterexample :
    parseCommandMsg ". say hello" = Except.ok ("", ["say", "hello"]) ∧
    parseCommandMsg ". say hello" ≠ Except.ok ("say", ["hello"]) ∧
    specParseCmd "." ". say hello" = some ("say", ["hello"]) := by
  exact ⟨rfl, by decide, rfl⟩

/-- C6 (amended).  The router splits the raw text on whitespace and takes
the first token with its FIRST CHARACTER dropped (not the configured
marker stripped), lower-cased, as the lookup key; the remaining tokens
pass through verbatim.  For a one-character marker attached directly to
the command word the two readings agree: ".say hello world" yields key
say and arguments hello, world. -/
theorem parseCommandMsg_amended :
    (∀ (msg tok : String) (rest : List String), pySplit msg = tok :: rest →
      parseCommandMsg msg = Except.ok (pyLower (pyDrop1 tok), rest)) ∧
    parseCommandMsg ".say hello world" = Except.ok ("say", ["hello", "world"]) := by
  refine ⟨?_, rfl⟩
  intro msg tok rest h
  simp [parseCommandMsg, h]

/-- Witness for C6: the amended parse evaluated on a concrete message with
an upper-case command word. -/
theorem parseCommandMsg_amended_witness :
    parseCommandMsg ".Foo Bar" = Except.ok (pyLower (pyDrop1 ".Foo"), ["Bar"]) :=
  parseCommandMsg_amended.1 ".Foo Bar" ".Foo" ["Bar"] rfl

/-- C7 (confirmed).  Registering a command whose alias is already present
in the table overwrites the old binding (lookup afterwards returns the new
handler) and appends the collision warning; add_command is a total
function of the table, so no exception is raised. -/
theorem addCommand_collision_overwrites_and_warns
    (tbl : List (String × CmdFunc)) (warns : List String) (m : CmdFunc)
    (name : String) (h1 : name ∈ m.commandNames)
    (h2 : (dictGet tbl name).isSome) :
    dictGet (addCommand tbl warns m).1 name = some m ∧
    ("Warning! commands registry already contains " ++ name) ∈
      (addCommand tbl warns m).2 := by
  constructor
  · exact foldl_addCommandStep_get_mem m m.commandNames (tbl, warns) name h1
  · exact foldl_addCommandStep_warned m m.commandNames (tbl, warns) name h1 h2

/-- Witness for C7: re-registering the alias foo overwrites the old
handler and records the warning. -/
theorem addCommand_collision_witness :
    dictGet (addCommand [("foo", oldFoo)] [] newFoo).1 "foo" = some newFoo ∧
    ("Warning! commands registry already contains " ++ "foo") ∈
      (addCommand [("foo", oldFoo)] [] newFoo).2 :=
  addCommand_collision_overwrites_and_warns [("foo", oldFoo)] [] newFoo "foo"
    (by decide) (by decide)

/-- C8 (code bug).  The claim says a non-empty handler result is sent to
the sender for a private message, to the channel otherwise, and logged.
Lines 235-240 implement exactly that routing (second and third conjunct:
the continuation applied to the private and the channel case), but no
handler result ever exists: the NameError of line 227 ends dispatch for
every known command before the handler runs, so no reply is sent or
logged (first conjunct). -/
theorem handleCommand_reply_routing_unreachable :
    (handleCommand greetState "zk" "whatit.is" "chii" ".greet").2 =
      Except.error
        (PyExc.nameError "NameError: name check_permission is not defined") ∧
    invokeAndReply "chii" "greet" greetCmd "zk" "whatit.is" "chii" [] =
      [Effect.invoke "greet" ["zk", "whatit.is", "chii"],
       Effect.msg "zk" "hi there", Effect.log "<chii> hi there"] ∧
    invokeAndReply "chii" "greet" greetCmd "zk" "whatit.is" "#chan" [] =
      [Effect.invoke "greet" ["zk", "whatit.is", "#chan"],
       Effect.msg "#chan" "hi there", Effect.log "<chii> hi there"] := by
  exact ⟨rfl, rfl, rfl⟩

/-- C9 (confirmed).  The permission check returns true for a None
restriction, and for a role present in the role table it returns true
exactly when the nick, the host, or the composite nick!host string is in
the member list; in both cases it is a pure boolean result. -/
theorem checkPermission_role_membership (roles : List (String × List String))
    (nick host : String) :
    checkPermission roles none nick host = Except.ok true ∧
    ∀ (role : String) (members : List String),
      dictGet roles role = some members →
      (checkPermission roles (some role) nick host = Except.ok true ↔
        (nick ∈ members ∨ host ∈ members ∨ (nick ++ "!" ++ host) ∈ members)) := by
  refine ⟨rfl, ?_⟩
  intro role members h
  simp [checkPermission, h, List.contains, or_assoc]

/-- Witness for C9: the owner identity is granted admins membership via
the composite nick!host string on the shipped role table. -/
theorem checkPermission_role_membership_witness :
    checkPermission demoRoles (some "admins") "zk" "is@whatit.is" =
      Except.ok true :=
  ((checkPermission_role_membership demoRoles "zk" "is@whatit.is").2
      "admins" ["zk!is@whatit.is"] rfl).mpr (Or.inr (Or.inr (by decide)))

/-- C10 (confirmed).  Dispatch reads the registries but never writes them:
command routing returns the state unchanged on every path (unknown key,
empty message, and the NameError path for a known key alike), event
dispatch returns the state unchanged (the lookup uses dict get, not
defaultdict indexing, so no empty entry is inserted), and an event type
with no entry dispatches no handler call at all.  The returned state
carries the commands table, the events table and the tasks list. -/
theorem dispatch_preserves_registries (st : BotState)
    (nick host channel msg et : String) (respond : Option String)
    (args : List String) :
    (handleCommand st nick host channel msg).1 = st ∧
    (handleEvent st et respond args).1 = st ∧
    (dictGet st.events et = none → (handleEvent st et respond args).2 = []) := by
  refine ⟨?_, ?_, ?_⟩
  · rcases hp : parseCommandMsg msg with e | ⟨key, as⟩
    · simp [handleCommand, hp]
    · rcases hq : dictGet st.commands key with _ | cmd <;>
        simp [handleCommand, hp, hq]
  · rcases hq : dictGet st.events et with _ | evs <;> simp [handleEvent, hq]
  · intro h
    simp [handleEvent, h]

/-- Witness for C10: dispatch on the demo state leaves it unchanged and an
unregistered event type produces no effects. -/
theorem dispatch_preserves_registries_witness :
    (handleCommand demoState "zk" "is@whatit.is" "#chan" ".say hi").1 =
      demoState ∧
    (handleEvent demoState "action" none []).2 = [] :=
  ⟨(dispatch_preserves_registries demoState "zk" "is@whatit.is" "#chan"
      ".say hi" "action" none []).1,
   (dispatch_preserves_registries demoState "zk" "is@whatit.is" "#chan"
      ".say hi" "action" none []).2.2 rfl⟩

end Chii
